import Mathlib

/-!
Verification of the grid-shape inference and contour-comparison pipeline of
`plotting.py` (repository `iso_value_selection`).

The Python module is shallowly embedded here:

* a numpy array is an `NdArray`: an explicit shape list plus the flat
  (row-major) data buffer; `a.size` is `a.shape.prod` as in numpy, and a
  genuine numpy array always satisfies `NdArray.wf` (buffer length equals the
  shape product);
* Python exceptions become the `PyError` sum, and every fallible function
  returns `Except PyError _`;
* `np.linspace(0, 1, s)` is `linspace01 s`;
* `plt.subplots(nrows=1, ncols=n)` with the default `squeeze=True` returns a
  single (non-indexable, non-iterable) Axes object when `n = 1` and a
  one-dimensional array of `n` Axes otherwise; this documented matplotlib
  behaviour is captured by `plt_subplots`;
* the external level-scheme routines (`iso_levels.equi_value`,
  `iso_levels.equi_prob_per_level`, `iso_levels.equi_horizontal_prob_per_level`)
  and `stats.contour_level_weight` are collaborators outside this module; the
  orchestrator definitions take them as function parameters, and concrete
  stand-ins built from their specified signatures are used for closed tests;
* the rendering side effect of a plotting call is represented by the figure
  description it would produce: a list of subplot records (titles, bar labels,
  bar heights, contour level values).
-/

/-- Python exceptions that the embedded code can raise. -/
inductive PyError where
  | nameError : PyError
  | typeError : String → PyError
  | valueError : String → PyError
  | assertionError : PyError
deriving DecidableEq, Repr

/-- A numpy `ndarray`: explicit shape plus the flat row-major data buffer.
`pdf.shape = s, s` in the source mutates the shape field only. -/
structure NdArray where
  shape : List Nat
  data : List ℚ
deriving DecidableEq, Repr

instance instDecEqExcept {ε α : Type} [DecidableEq ε] [DecidableEq α] :
    DecidableEq (Except ε α) := fun x y =>
  match x, y with
  | .ok a, .ok b =>
    if h : a = b then isTrue (by rw [h]) else isFalse (by intro he; cases he; exact h rfl)
  | .error e, .error f =>
    if h : e = f then isTrue (by rw [h]) else isFalse (by intro he; cases he; exact h rfl)
  | .ok _, .error _ => isFalse (by intro he; cases he)
  | .error _, .ok _ => isFalse (by intro he; cases he)

/-- numpy `a.size`: the product of the shape. -/
def NdArray.size (a : NdArray) : Nat := a.shape.prod

/-- A genuine numpy array: the buffer length matches the shape product. -/
def NdArray.wf (a : NdArray) : Prop := a.data.length = a.shape.prod

/-- `np.linspace(0, 1, s)`: `s` evenly spaced points from 0 to 1 inclusive;
`[]` for `s = 0` and `[0]` for `s = 1`, as numpy produces. -/
def linspace01 (s : Nat) : List ℚ :=
  if s ≤ 1 then List.replicate s 0
  else (List.range s).map (fun i : Nat => (i : ℚ) / ((s : ℚ) - 1))

/-- Largest `j ≤ k` with `j * j ≤ n` (0 when there is none). Structural
recursion so that the kernel can evaluate it. -/
def isqrtAux : Nat → Nat → Nat
  | 0, _ => 0
  | k + 1, n => if (k + 1) * (k + 1) ≤ n then k + 1 else isqrtAux k n

/-- `int(n ** 0.5)` of the source, idealized to the exact integer square
root (floating-point rounding is out of scope). Agrees with `Nat.sqrt`
(`isqrt_eq_sqrt`) but evaluates by structural recursion. -/
def isqrt (n : Nat) : Nat := isqrtAux n n

theorem isqrtAux_eq_sqrt (k n : Nat) (h : Nat.sqrt n ≤ k) :
    isqrtAux k n = Nat.sqrt n := by
  induction k with
  | zero =>
    simp only [isqrtAux]
    omega
  | succ k ih =>
    simp only [isqrtAux]
    by_cases hk : (k + 1) * (k + 1) ≤ n
    · have h2 := Nat.le_sqrt.mpr hk
      simp only [if_pos hk]
      omega
    · have h2 : Nat.sqrt n < k + 1 := Nat.sqrt_lt.mpr (by omega)
      simp only [if_neg hk]
      exact ih (by omega)

theorem isqrt_eq_sqrt (n : Nat) : isqrt n = Nat.sqrt n :=
  isqrtAux_eq_sqrt n n (Nat.sqrt_le_self n)

/-- Lines 36-40 of `plotting.py`: if `indexes` is not `None`, its first
element overrides `x` and its second overrides `y` (when present). -/
def applyIndexes (x y : Option (List ℚ)) (indexes : Option (List (List ℚ))) :
    Option (List ℚ) × Option (List ℚ) :=
  match indexes with
  | none => (x, y)
  | some idx =>
    (if idx.length > 0 then some (idx.getD 0 []) else x,
     if idx.length > 1 then some (idx.getD 1 []) else y)

/-- Line 67 of `plotting.py`:
`assert pdf.shape[0] == len(x) and pdf.shape[1] == len(y)`. -/
def finishAssert (pdf : NdArray) (x y : List ℚ) :
    Except PyError (NdArray × List ℚ × List ℚ) :=
  if pdf.shape.getD 0 0 = x.length ∧ pdf.shape.getD 1 0 = y.length then
    .ok (pdf, x, y)
  else
    .error .assertionError

/-- Lines 42-68 of `plotting.py`: the body of `_validate_infer_indexes`
after the `indexes` override, dispatching on which of `x`, `y` are set.
The Python local variable `s` is assigned only inside the
`len(pdf.shape) == 1` branch; on every other path through the
`x is None and y is None` case, `np.linspace(0, 1, s)` on line 56 reads an
unassigned local and raises `NameError`. -/
def validateCore (pdf : NdArray) :
    Option (List ℚ) × Option (List ℚ) →
    Except PyError (NdArray × List ℚ × List ℚ)
  | (none, none) =>
    if pdf.shape.length = 2 then
      -- `pass`: `s` is never assigned, so line 56 raises NameError
      .error .nameError
    else if pdf.shape.length = 1 then
      let n := pdf.shape.getD 0 0
      let s := isqrt n
      if s * s = n then
        finishAssert { pdf with shape := [s, s] } (linspace01 s) (linspace01 s)
      else
        .error (.valueError "Cannot infer shape of flattened data array pdf since it does not have a square number of elements.")
    else
      -- 0-d or >2-d arrays also leave `s` unassigned: NameError at line 56
      .error .nameError
  | (some _, none) => .error (.typeError "x and y must be both set or both unset")
  | (none, some _) => .error (.typeError "x and y must be both set or both unset")
  | (some xs, some ys) =>
    if pdf.size = xs.length * ys.length then
      finishAssert { pdf with shape := [xs.length, ys.length] } xs ys
    else
      .error (.valueError "shapes of x,y and pdf do not match")

/-- Lines 16-68 of `plotting.py` (`_validate_infer_indexes`): apply the
`indexes` override, then dispatch on which of `x`, `y` are set
(`validateCore`). -/
def validate_infer_indexes (pdf : NdArray) (x y : Option (List ℚ))
    (indexes : Option (List (List ℚ))) :
    Except PyError (NdArray × List ℚ × List ℚ) :=
  validateCore pdf (applyIndexes x y indexes)

/-- Line 13 of `plotting.py`: default strings for labelling the plots. -/
def DEFAULT_LABELS : List String := ["old", "vertical", "horizontal"]

/-- The value returned by `plt.subplots(nrows=1, ncols=n)`.
With the default `squeeze=True`, matplotlib returns a single Axes object
(not an array) when the grid is 1x1, and a 1-d array of `n` Axes when
`n ≥ 2`; `ncols=0` is rejected by the gridspec with a `ValueError`. -/
inductive AxResult where
  | single : AxResult
  | array : Nat → AxResult
deriving DecidableEq, Repr

/-- `plt.subplots(nrows=1, ncols=n)` under the default `squeeze=True`. -/
def plt_subplots (ncols : Nat) : Except PyError AxResult :=
  if ncols = 0 then
    .error (.valueError "Number of columns must be a positive integer")
  else if ncols = 1 then
    .ok .single
  else
    .ok (.array ncols)

/-- One bar subplot of `plot_contour_levels_stat`: its title, the bar
labels `L1..L(len(levels)+1)` and the bar heights. -/
structure BarSub where
  title : String
  barLabels : List String
  heights : List ℚ
deriving DecidableEq, Repr

/-- One contour subplot of `contour_comparision_plot_2d`: its title and the
deduplicated, sorted contour level values it is drawn with. -/
structure ContourSub where
  title : String
  levels : List ℚ
deriving DecidableEq, Repr

/-- Line 166 of `plotting.py`:
`level_labels = ['L' + str(i + 1) for i in range(len(levels) + 1)]`. -/
def levelLabels (numLevels : Nat) : List String :=
  (List.range (numLevels + 1)).map (fun i => "L" ++ toString (i + 1))

/-- Insert a value into a sorted list of rationals, keeping it sorted. -/
def insertSorted (q : ℚ) : List ℚ → List ℚ
  | [] => [q]
  | a :: as => if q ≤ a then q :: a :: as else a :: insertSorted q as

/-- Insertion sort on rationals (ascending). -/
def sortRat (l : List ℚ) : List ℚ := l.foldr insertSorted []

/-- `np.unique`: the sorted distinct values of the input. -/
def npUnique (l : List ℚ) : List ℚ := (sortRat l).dedup

/-- Lines 139-168 of `plotting.py` (`plot_contour_levels_stat`): one figure of
bar subplots, one per scheme. The external `stats.contour_level_weight` is the
parameter `clw`. A successful call renders the returned list of subplots; an
error return raises before anything is rendered. When `n = 1`, the single Axes
returned by `plt.subplots` does not support the indexing `ax[i]` in the loop
body, so the first iteration raises a `TypeError`. -/
def plot_contour_levels_stat (clw : List ℚ → NdArray → List ℚ)
    (levels_lst : List (List ℚ)) (pdf_lst : List NdArray) (labels : List String) :
    Except PyError (List BarSub) :=
  if levels_lst.length = pdf_lst.length ∧ levels_lst.length = labels.length then
    match plt_subplots levels_lst.length with
    | .error e => .error e
    | .ok .single =>
      match levels_lst.zip pdf_lst with
      | [] => .ok []
      | _ :: _ => .error (.typeError "AxesSubplot object is not subscriptable")
    | .ok (.array _) =>
      .ok (((levels_lst.zip pdf_lst).zip labels).map
        (fun t => { title := t.2, barLabels := levelLabels t.1.1.length,
                    heights := clw t.1.1 t.1.2 }))
  else
    .error (.valueError "All arguments must be sequences of equal length.")

/-- Lines 171-197 of `plotting.py` (`contour_comparision_plot_2d`): normalize
the inputs, then draw one contour subplot per level set, each with the
deduplicated sorted levels (`np.unique`) and its label as title. The loop
iterates `zip(ax, labels, levels_lst)`; when `n = 1` the single Axes object is
not iterable and `zip` raises a `TypeError`. -/
def contour_comparision_plot_2d (levels_lst : List (List ℚ)) (pdf : NdArray)
    (x y : Option (List ℚ)) (indexes : Option (List (List ℚ)))
    (labels : List String) : Except PyError (List ContourSub) :=
  match validate_infer_indexes pdf x y indexes with
  | .error e => .error e
  | .ok (_, _, _) =>
    match plt_subplots levels_lst.length with
    | .error e => .error e
    | .ok .single => .error (.typeError "zip argument 1 must support iteration")
    | .ok (.array m) =>
      .ok (((labels.zip levels_lst).take m).map
        (fun t => { title := t.1, levels := npUnique t.2 }))

/-- The `k` argument of `plot_combined`: a single scalar resolution, which is
not iterable (`for ki in k` raises `TypeError`), or a sequence of them. -/
inductive KArg where
  | scalar : Nat → KArg
  | seq : List Nat → KArg
deriving DecidableEq, Repr

/-- Lines 225 and 230 of `plotting.py`:
`[s.format(ki) for s in ['old (k={})', 'vertical (k={})', 'horizonal (k={})']]`
(the third display tag is spelled `horizonal` in the source). -/
def labelsFor (ki : Nat) : List String :=
  ["old (k=" ++ toString ki ++ ")",
   "vertical (k=" ++ toString ki ++ ")",
   "horizonal (k=" ++ toString ki ++ ")"]

/-- Run a fallible function over a list, stopping at the first error. -/
def mapExcept (f : α → Except PyError β) : List α → Except PyError (List β)
  | [] => .ok []
  | a :: as =>
    match f a with
    | .error e => .error e
    | .ok b =>
      match mapExcept f as with
      | .error e => .error e
      | .ok bs => .ok (b :: bs)

/-- Lines 206-218 of `plotting.py`: the per-resolution level-set triples of
`plot_combined`. The `try`/`except TypeError` around the `for ki in k` loop
degrades a non-iterable scalar `k` to the singleton sequence `[k]`. -/
def klsOf (ev epl ehpl : NdArray → Nat → List ℚ) (p : NdArray) :
    KArg → List (Nat × List (List ℚ))
  | .seq ks => ks.map (fun ki => (ki, [ev p ki, epl p ki, ehpl p ki]))
  | .scalar k0 => [(k0, [ev p k0, epl p k0, ehpl p k0])]

/-- Lines 206-230 of `plotting.py`: the body of `plot_combined` after the
initial normalization: derive the three level sets per resolution (external
routines `ev`, `epl`, `ehpl` are `iso_levels.equi_value`,
`equi_prob_per_level` and `equi_horizontal_prob_per_level`), then produce one
bar-comparison figure per resolution followed by one contour-comparison
figure per resolution. -/
def plotCombinedCore (ev epl ehpl : NdArray → Nat → List ℚ)
    (clw : List ℚ → NdArray → List ℚ) (p : NdArray) (x y : List ℚ)
    (k : KArg) :
    Except PyError (List (List BarSub) × List (List ContourSub)) :=
  match mapExcept (fun kl =>
      plot_contour_levels_stat clw kl.2 (List.replicate kl.2.length p)
        (labelsFor kl.1)) (klsOf ev epl ehpl p k) with
  | .error e => .error e
  | .ok barFigs =>
    match mapExcept (fun kl =>
        contour_comparision_plot_2d kl.2 p (some x) (some y) none
          (labelsFor kl.1)) (klsOf ev epl ehpl p k) with
    | .error e => .error e
    | .ok contourFigs => .ok (barFigs, contourFigs)

/-- Lines 200-230 of `plotting.py` (`plot_combined`): normalize the input
(line 203), then run `plotCombinedCore`. -/
def plot_combined (ev epl ehpl : NdArray → Nat → List ℚ)
    (clw : List ℚ → NdArray → List ℚ) (p0 : NdArray) (x0 y0 : Option (List ℚ))
    (indexes : Option (List (List ℚ))) (k : KArg) :
    Except PyError (List (List BarSub) × List (List ContourSub)) :=
  match validate_infer_indexes p0 x0 y0 indexes with
  | .error e => .error e
  | .ok (p, x, y) => plotCombinedCore ev epl ehpl clw p x y k

/-- The titles of the bar subplots of each bar figure of a `plot_combined`
result (empty when the call raised). -/
def barTitles (r : Except PyError (List (List BarSub) × List (List ContourSub))) :
    List (List String) :=
  match r with
  | .ok (bars, _) => bars.map (fun fig => fig.map (fun sub => sub.title))
  | .error _ => []

/-- Figure counts of a `plot_combined` result: number of bar figures, number
of contour figures, subplots per bar figure, subplots per contour figure. -/
def figCounts (r : Except PyError (List (List BarSub) × List (List ContourSub))) :
    Option (Nat × Nat × List Nat × List Nat) :=
  match r with
  | .ok (bars, contours) =>
    some (bars.length, contours.length, bars.map List.length, contours.map List.length)
  | .error _ => none

/-- The bar figure `plot_combined` produces for resolution `ki`: three bar
subplots, one per scheme, in the fixed order value-equidistant (`old`),
probability-equidistant by count (`vertical`), probability-equidistant by
extent (`horizonal`, as spelled on line 225 of the source). -/
def barFigOf (ev epl ehpl : NdArray → Nat → List ℚ)
    (clw : List ℚ → NdArray → List ℚ) (p : NdArray) (ki : Nat) : List BarSub :=
  [{ title := "old (k=" ++ toString ki ++ ")",
     barLabels := levelLabels (ev p ki).length, heights := clw (ev p ki) p },
   { title := "vertical (k=" ++ toString ki ++ ")",
     barLabels := levelLabels (epl p ki).length, heights := clw (epl p ki) p },
   { title := "horizonal (k=" ++ toString ki ++ ")",
     barLabels := levelLabels (ehpl p ki).length, heights := clw (ehpl p ki) p }]

/-- The contour figure `plot_combined` produces for resolution `ki`. -/
def contourFigOf (ev epl ehpl : NdArray → Nat → List ℚ) (p : NdArray)
    (ki : Nat) : List ContourSub :=
  [{ title := "old (k=" ++ toString ki ++ ")", levels := npUnique (ev p ki) },
   { title := "vertical (k=" ++ toString ki ++ ")", levels := npUnique (epl p ki) },
   { title := "horizonal (k=" ++ toString ki ++ ")", levels := npUnique (ehpl p ki) }]

/-- Modelled from the spec: stand-in for the external level-scheme routines
`iso_levels.equi_value`, `equi_prob_per_level` and
`equi_horizontal_prob_per_level` (`(grid, k) -> sequence of thresholds`,
`k - 1` of them for `equi_value`), whose implementations are outside this
module; used only to instantiate closed witnesses. -/
def schemeStub : NdArray → Nat → List ℚ := fun _ k => List.replicate (k - 1) 0

/-- Modelled from the spec: stand-in for the external
`stats.contour_level_weight(levels, grid) -> sequence of len(levels)+1
probability masses`, whose implementation is outside this module; used only
to instantiate closed witnesses. -/
def clwStub : List ℚ → NdArray → List ℚ :=
  fun levels _ => List.replicate (levels.length + 1) 0

/-- A concrete flat density sample of square length 9. -/
def d9 : List ℚ := [1, 2, 3, 4, 5, 6, 7, 8, 9]

theorem linspace01_length (s : Nat) : (linspace01 s).length = s := by
  unfold linspace01
  split
  · exact List.length_replicate _ _
  · rw [List.length_map, List.length_range]

theorem linspace01_getD (s i : Nat) (h2 : 2 ≤ s) (hi : i < s) :
    (linspace01 s).getD i 0 = (i : ℚ) / ((s : ℚ) - 1) := by
  unfold linspace01
  rw [if_neg (by omega)]
  have hlen : i < ((List.range s).map (fun j : Nat => (j : ℚ) / ((s : ℚ) - 1))).length := by
    rw [List.length_map, List.length_range]
    exact hi
  rw [List.getD_eq_getElem _ _ hlen, List.getElem_map, List.getElem_range]

theorem linspace01_getD_zero (s : Nat) : (linspace01 s).getD 0 0 = 0 := by
  match s with
  | 0 => rfl
  | 1 => rfl
  | (n + 2) =>
    rw [linspace01_getD (n + 2) 0 (by omega) (by omega)]
    simp

theorem linspace01_getD_last (s : Nat) (h2 : 2 ≤ s) :
    (linspace01 s).getD (s - 1) 0 = 1 := by
  rw [linspace01_getD s (s - 1) h2 (by omega)]
  have hne : ((s : ℚ) - 1) ≠ 0 := by
    have : (2 : ℚ) ≤ (s : ℚ) := by exact_mod_cast h2
    intro hc
    linarith
  have hc : ((s - 1 : Nat) : ℚ) = (s : ℚ) - 1 := by
    have : 1 ≤ s := by omega
    push_cast [this]
    ring
  rw [hc, div_self hne]

theorem linspace01_spacing (s i : Nat) (h2 : 2 ≤ s) (hi : i + 1 < s) :
    (linspace01 s).getD (i + 1) 0 - (linspace01 s).getD i 0 =
      1 / ((s : ℚ) - 1) := by
  rw [linspace01_getD s (i + 1) h2 hi, linspace01_getD s i h2 (by omega),
    div_sub_div_same]
  congr 1
  push_cast
  ring

/-- Every successful run of the normalizer returns a grid whose shape is
exactly the pair of axis lengths, with the data buffer untouched. -/
theorem validate_ok_shape (pdf : NdArray) (x y : Option (List ℚ))
    (idx : Option (List (List ℚ))) (p' : NdArray) (xs ys : List ℚ)
    (h : validate_infer_indexes pdf x y idx = .ok (p', xs, ys)) :
    p'.shape = [xs.length, ys.length] ∧ p'.data = pdf.data := by
  unfold validate_infer_indexes at h
  rcases hxy : applyIndexes x y idx with ⟨x', y'⟩
  rw [hxy] at h
  cases x' <;> cases y' <;> simp only [validateCore] at h
  · -- x, y both unset: only the square 1-d path returns Except.ok
    split_ifs at h with h1 h2 h3
    unfold finishAssert at h
    split_ifs at h with h4
    simp only [Except.ok.injEq, Prod.mk.injEq] at h
    obtain ⟨hp, hx, hy⟩ := h
    subst hp hx hy
    exact ⟨by rw [linspace01_length], rfl⟩
  · -- only y set
    exact Except.noConfusion h
  · -- only x set
    exact Except.noConfusion h
  · -- x, y both set: only the matching-size path returns Except.ok
    rename_i xa ya
    split_ifs at h with h1
    unfold finishAssert at h
    split_ifs at h with h4
    simp only [Except.ok.injEq, Prod.mk.injEq] at h
    obtain ⟨hp, hx, hy⟩ := h
    subst hp hx hy
    exact ⟨rfl, rfl⟩

/-- Re-validating an already canonical triple (grid with shape equal to the
axis-length pair, both axes supplied) succeeds and returns it unchanged. -/
theorem validate_resubmit (p' : NdArray) (xs ys : List ℚ)
    (hsh : p'.shape = [xs.length, ys.length]) :
    validate_infer_indexes p' (some xs) (some ys) none = .ok (p', xs, ys) := by
  have hsz : p'.size = xs.length * ys.length := by
    simp [NdArray.size, hsh]
  have hself : ({ p' with shape := [xs.length, ys.length] } : NdArray) = p' := by
    cases p'
    simp_all
  unfold validate_infer_indexes
  show validateCore p' (some xs, some ys) = .ok (p', xs, ys)
  simp only [validateCore, hsz, if_pos, hself]
  unfold finishAssert
  rw [hsh]
  simp

-- quick sanity checks of the embedding
example : validate_infer_indexes ⟨[4], [1, 2, 3, 4]⟩ none none none =
    .ok (⟨[2, 2], [1, 2, 3, 4]⟩, linspace01 2, linspace01 2) := rfl

example : validate_infer_indexes ⟨[2, 2], [1, 2, 3, 4]⟩ none none none =
    .error .nameError := rfl

example : validate_infer_indexes ⟨[5], [1, 2, 3, 4, 5]⟩ none none none =
    .error (.valueError "Cannot infer shape of flattened data array pdf since it does not have a square number of elements.") := rfl

example : validate_infer_indexes ⟨[6], [1, 2, 3, 4, 5, 6]⟩ (some [0, 1, 2]) (some [0, 1]) none =
    .ok (⟨[3, 2], [1, 2, 3, 4, 5, 6]⟩, [0, 1, 2], [0, 1]) := rfl

/-- C1: the spec claims a two-dimensional `pdf` with `x`, `y` and `indexes`
all unset normalizes successfully, keeping the shape and synthesizing evenly
spaced axes. The code instead raises `NameError` on line 56: the local `s` is
assigned only in the one-dimensional branch, and the two-dimensional branch is
`pass`. This theorem evaluates the embedded code at the failing input
`pdf = [[1, 2], [3, 4]]`. -/
theorem two_dim_no_axes_raises_nameError :
    validate_infer_indexes ⟨[2, 2], [1, 2, 3, 4]⟩ none none none =
      .error .nameError := rfl

/-- C2: a one-dimensional `pdf` with no axes normalizes successfully exactly
when its element count is a perfect square `s * s` (the code tests
`int(len ** 0.5) ** 2 == len`, which characterizes perfect squares); on
success the grid has shape `(s, s)` and both axes are `linspace01 s`: `s`
evenly spaced points starting at 0, ending at 1, with constant gap
`1 / (s - 1)`; otherwise it fails with the shape-inference `ValueError`. -/
theorem flat_no_axes_square_inference (d : List ℚ) (i : Nat) :
    (validate_infer_indexes ⟨[d.length], d⟩ none none none =
      if isqrt d.length * isqrt d.length = d.length then
        .ok (⟨[isqrt d.length, isqrt d.length], d⟩,
          linspace01 (isqrt d.length), linspace01 (isqrt d.length))
      else
        .error (.valueError "Cannot infer shape of flattened data array pdf since it does not have a square number of elements.")) ∧
    ((isqrt d.length * isqrt d.length = d.length) ↔ ∃ t, t * t = d.length) ∧
    (linspace01 (isqrt d.length)).length = isqrt d.length ∧
    (linspace01 (isqrt d.length)).getD 0 0 = 0 ∧
    (2 ≤ isqrt d.length →
      (linspace01 (isqrt d.length)).getD (isqrt d.length - 1) 0 = 1) ∧
    (2 ≤ isqrt d.length → i + 1 < isqrt d.length →
      (linspace01 (isqrt d.length)).getD (i + 1) 0 -
        (linspace01 (isqrt d.length)).getD i 0 =
          1 / ((isqrt d.length : ℚ) - 1)) := by
  refine ⟨?_, ?_, linspace01_length _, linspace01_getD_zero _,
    linspace01_getD_last _, linspace01_spacing _ i⟩
  · show validateCore ⟨[d.length], d⟩ (none, none) = _
    simp only [validateCore]
    norm_num
    split
    · unfold finishAssert
      rw [if_pos]
      constructor <;> simp [linspace01_length]
    · rfl
  · rw [isqrt_eq_sqrt]
    exact (Nat.exists_mul_self _).symm

/-- C2 witness: length 9 is a perfect square with `isqrt 9 = 3 ≥ 2`, so
normalization succeeds and the synthesized axis facts hold concretely. -/
theorem flat_no_axes_square_inference_witness :
    (validate_infer_indexes ⟨[d9.length], d9⟩ none none none =
      if isqrt d9.length * isqrt d9.length = d9.length then
        .ok (⟨[isqrt d9.length, isqrt d9.length], d9⟩,
          linspace01 (isqrt d9.length), linspace01 (isqrt d9.length))
      else
        .error (.valueError "Cannot infer shape of flattened data array pdf since it does not have a square number of elements.")) ∧
    (linspace01 (isqrt d9.length)).getD (isqrt d9.length - 1) 0 = 1 ∧
    (linspace01 (isqrt d9.length)).getD (1 + 1) 0 -
      (linspace01 (isqrt d9.length)).getD 1 0 =
        1 / ((isqrt d9.length : ℚ) - 1) :=
  ⟨(flat_no_axes_square_inference d9 1).1,
   (flat_no_axes_square_inference d9 1).2.2.2.2.1 (by decide),
   (flat_no_axes_square_inference d9 1).2.2.2.2.2 (by decide) (by decide)⟩

/-- C3: with both axes supplied (and no `indexes`), normalization succeeds
exactly when `len(x) * len(y)` equals the element count of `pdf`; on success
the grid is `pdf` reshaped to `(len(x), len(y))` with the data buffer
untouched, and otherwise it fails with the shape-mismatch `ValueError`. -/
theorem both_axes_reshape_iff_size_matches (pdf : NdArray) (xs ys : List ℚ) :
    validate_infer_indexes pdf (some xs) (some ys) none =
      if pdf.size = xs.length * ys.length then
        .ok (⟨[xs.length, ys.length], pdf.data⟩, xs, ys)
      else
        .error (.valueError "shapes of x,y and pdf do not match") := by
  unfold validate_infer_indexes
  show validateCore pdf (some xs, some ys) = _
  simp only [validateCore]
  split
  · unfold finishAssert
    rw [if_pos]
    constructor <;> simp
  · rfl

/-- C4: whenever, after the `indexes` override, exactly one of `x`/`y` is
set, normalization fails with the argument-pairing `TypeError` and never
returns a grid. -/
theorem single_axis_pairing_error (pdf : NdArray) (x y : Option (List ℚ))
    (idx : Option (List (List ℚ)))
    (h : (∃ xs, applyIndexes x y idx = (some xs, none)) ∨
         (∃ ys, applyIndexes x y idx = (none, some ys))) :
    validate_infer_indexes pdf x y idx =
      .error (.typeError "x and y must be both set or both unset") := by
  unfold validate_infer_indexes
  rcases h with ⟨xs, hx⟩ | ⟨ys, hy⟩
  · rw [hx]
    rfl
  · rw [hy]
    rfl

/-- C4 witness: only `x` supplied. -/
theorem single_axis_pairing_error_witness :
    validate_infer_indexes ⟨[4], [1, 2, 3, 4]⟩ (some [0, 1]) none none =
      .error (.typeError "x and y must be both set or both unset") :=
  single_axis_pairing_error ⟨[4], [1, 2, 3, 4]⟩ (some [0, 1]) none none
    (Or.inl ⟨[0, 1], rfl⟩)

/-- C5: every successful normalization returns a grid whose shape is exactly
`(len(x_axis), len(y_axis))`. -/
theorem normalized_grid_shape_invariant (pdf : NdArray) (x y : Option (List ℚ))
    (idx : Option (List (List ℚ))) (grid : NdArray) (xs ys : List ℚ)
    (h : validate_infer_indexes pdf x y idx = .ok (grid, xs, ys)) :
    grid.shape = [xs.length, ys.length] :=
  (validate_ok_shape pdf x y idx grid xs ys h).1

/-- C5 witness: the flat input `[1,2,3,4]` normalizes to a `2×2` grid with
two synthesized axes of length 2. -/
theorem normalized_grid_shape_invariant_witness :
    (⟨[2, 2], [1, 2, 3, 4]⟩ : NdArray).shape =
      [(linspace01 2).length, (linspace01 2).length] :=
  normalized_grid_shape_invariant ⟨[4], [1, 2, 3, 4]⟩ none none none
    ⟨[2, 2], [1, 2, 3, 4]⟩ (linspace01 2) (linspace01 2) rfl

/-- C6: passing `indexes=[xs, ys]` is identical to passing `x=xs, y=ys`
directly, whatever was separately supplied for `x` and `y`: both elements of
`indexes` override them. -/
theorem indexes_pair_overrides_axes (pdf : NdArray) (x y : Option (List ℚ))
    (xs ys : List ℚ) :
    validate_infer_indexes pdf x y (some [xs, ys]) =
      validate_infer_indexes pdf (some xs) (some ys) none := rfl

theorem bar_fig_scheme (clw : List ℚ → NdArray → List ℚ) (p : NdArray)
    (a b c : List ℚ) (ki : Nat) :
    plot_contour_levels_stat clw [a, b, c]
        (List.replicate ([a, b, c] : List (List ℚ)).length p) (labelsFor ki) =
      .ok [{ title := "old (k=" ++ toString ki ++ ")",
             barLabels := levelLabels a.length, heights := clw a p },
           { title := "vertical (k=" ++ toString ki ++ ")",
             barLabels := levelLabels b.length, heights := clw b p },
           { title := "horizonal (k=" ++ toString ki ++ ")",
             barLabels := levelLabels c.length, heights := clw c p }] := rfl

theorem contour_fig_scheme (p : NdArray) (xs ys : List ℚ) (a b c : List ℚ)
    (ki : Nat) (hsh : p.shape = [xs.length, ys.length]) :
    contour_comparision_plot_2d [a, b, c] p (some xs) (some ys) none
        (labelsFor ki) =
      .ok [{ title := "old (k=" ++ toString ki ++ ")", levels := npUnique a },
           { title := "vertical (k=" ++ toString ki ++ ")", levels := npUnique b },
           { title := "horizonal (k=" ++ toString ki ++ ")", levels := npUnique c }] := by
  unfold contour_comparision_plot_2d
  rw [validate_resubmit p xs ys hsh]
  rfl

theorem mapExcept_bars (ev epl ehpl : NdArray → Nat → List ℚ)
    (clw : List ℚ → NdArray → List ℚ) (p : NdArray) (ks : List Nat) :
    mapExcept (fun kl : Nat × List (List ℚ) =>
        plot_contour_levels_stat clw kl.2 (List.replicate kl.2.length p)
          (labelsFor kl.1))
      (ks.map (fun ki => (ki, [ev p ki, epl p ki, ehpl p ki]))) =
      .ok (ks.map (barFigOf ev epl ehpl clw p)) := by
  induction ks with
  | nil => rfl
  | cons kh kt ih =>
    simp only [List.map_cons, mapExcept]
    rw [bar_fig_scheme, ih]
    rfl

theorem mapExcept_contours (ev epl ehpl : NdArray → Nat → List ℚ)
    (p : NdArray) (x y : List ℚ) (ks : List Nat)
    (hsh : p.shape = [x.length, y.length]) :
    mapExcept (fun kl : Nat × List (List ℚ) =>
        contour_comparision_plot_2d kl.2 p (some x) (some y) none
          (labelsFor kl.1))
      (ks.map (fun ki => (ki, [ev p ki, epl p ki, ehpl p ki]))) =
      .ok (ks.map (contourFigOf ev epl ehpl p)) := by
  induction ks with
  | nil => rfl
  | cons kh kt ih =>
    simp only [List.map_cons, mapExcept]
    rw [contour_fig_scheme p x y _ _ _ _ hsh, ih]
    rfl

theorem plotCombinedCore_seq (ev epl ehpl : NdArray → Nat → List ℚ)
    (clw : List ℚ → NdArray → List ℚ) (p : NdArray) (x y : List ℚ)
    (ks : List Nat) (hsh : p.shape = [x.length, y.length]) :
    plotCombinedCore ev epl ehpl clw p x y (.seq ks) =
      .ok (ks.map (barFigOf ev epl ehpl clw p),
           ks.map (contourFigOf ev epl ehpl p)) := by
  unfold plotCombinedCore
  simp only [klsOf]
  rw [mapExcept_bars ev epl ehpl clw p ks,
    mapExcept_contours ev epl ehpl p x y ks hsh]

theorem plotCombinedCore_scalar_eq_seq (ev epl ehpl : NdArray → Nat → List ℚ)
    (clw : List ℚ → NdArray → List ℚ) (p : NdArray) (x y : List ℚ) (kk : Nat) :
    plotCombinedCore ev epl ehpl clw p x y (.scalar kk) =
      plotCombinedCore ev epl ehpl clw p x y (.seq [kk]) := rfl

theorem plot_combined_ok (ev epl ehpl : NdArray → Nat → List ℚ)
    (clw : List ℚ → NdArray → List ℚ) (p0 : NdArray) (x0 y0 : Option (List ℚ))
    (idx : Option (List (List ℚ))) (p : NdArray) (x y : List ℚ) (k : KArg)
    (h : validate_infer_indexes p0 x0 y0 idx = .ok (p, x, y)) :
    plot_combined ev epl ehpl clw p0 x0 y0 idx k =
      plotCombinedCore ev epl ehpl clw p x y k := by
  unfold plot_combined
  rw [h]

theorem barTitles_seq (ev epl ehpl : NdArray → Nat → List ℚ)
    (clw : List ℚ → NdArray → List ℚ) (p : NdArray) (ks : List Nat) :
    (ks.map (barFigOf ev epl ehpl clw p)).map
        (fun fig => fig.map (fun sub => sub.title)) =
      ks.map (fun ki => ["old (k=" ++ toString ki ++ ")",
        "vertical (k=" ++ toString ki ++ ")",
        "horizonal (k=" ++ toString ki ++ ")"]) := by
  induction ks with
  | nil => rfl
  | cons a l ih =>
    simp only [List.map_cons, ih]
    rfl

/-- C7: a `TypeError` from iterating a non-iterable scalar `resolutions`
value is absorbed once, at the top of `plot_combined`, by retrying with the
scalar as a singleton sequence: `scalar kk` and `seq [kk]` produce identical
results. A scalar resolution 3 yields exactly one bar-comparison figure and
one contour-comparison figure, each with three subplots (one per scheme);
`[2, 3]` yields two of each, in the given order (witnessed by the `k=2`,
`k=3` bar titles). -/
theorem combined_driver_scalar_fallback_and_counts
    (ev epl ehpl : NdArray → Nat → List ℚ) (clw : List ℚ → NdArray → List ℚ)
    (p0 : NdArray) (x0 y0 : Option (List ℚ)) (idx : Option (List (List ℚ)))
    (p : NdArray) (x y : List ℚ) (kk : Nat)
    (h : validate_infer_indexes p0 x0 y0 idx = .ok (p, x, y)) :
    (plot_combined ev epl ehpl clw p0 x0 y0 idx (.scalar kk) =
       plot_combined ev epl ehpl clw p0 x0 y0 idx (.seq [kk])) ∧
    figCounts (plot_combined ev epl ehpl clw p0 x0 y0 idx (.scalar 3)) =
      some (1, 1, [3], [3]) ∧
    figCounts (plot_combined ev epl ehpl clw p0 x0 y0 idx (.seq [2, 3])) =
      some (2, 2, [3, 3], [3, 3]) ∧
    barTitles (plot_combined ev epl ehpl clw p0 x0 y0 idx (.seq [2, 3])) =
      [labelsFor 2, labelsFor 3] := by
  have hsh := (validate_ok_shape p0 x0 y0 idx p x y h).1
  refine ⟨?_, ?_, ?_, ?_⟩
  · rw [plot_combined_ok ev epl ehpl clw p0 x0 y0 idx p x y _ h,
      plot_combined_ok ev epl ehpl clw p0 x0 y0 idx p x y _ h]
    exact plotCombinedCore_scalar_eq_seq ev epl ehpl clw p x y kk
  · rw [plot_combined_ok ev epl ehpl clw p0 x0 y0 idx p x y _ h,
      plotCombinedCore_scalar_eq_seq,
      plotCombinedCore_seq ev epl ehpl clw p x y [3] hsh]
    rfl
  · rw [plot_combined_ok ev epl ehpl clw p0 x0 y0 idx p x y _ h,
      plotCombinedCore_seq ev epl ehpl clw p x y [2, 3] hsh]
    rfl
  · rw [plot_combined_ok ev epl ehpl clw p0 x0 y0 idx p x y _ h,
      plotCombinedCore_seq ev epl ehpl clw p x y [2, 3] hsh]
    rfl

/-- C7 witness: the combined driver run on the flat density `[1,2,3,4]` with
the spec-modelled external routines. -/
theorem combined_driver_scalar_fallback_and_counts_witness :
    (plot_combined schemeStub schemeStub schemeStub clwStub
        ⟨[4], [1, 2, 3, 4]⟩ none none none (.scalar 5) =
       plot_combined schemeStub schemeStub schemeStub clwStub
        ⟨[4], [1, 2, 3, 4]⟩ none none none (.seq [5])) ∧
    figCounts (plot_combined schemeStub schemeStub schemeStub clwStub
        ⟨[4], [1, 2, 3, 4]⟩ none none none (.scalar 3)) =
      some (1, 1, [3], [3]) ∧
    figCounts (plot_combined schemeStub schemeStub schemeStub clwStub
        ⟨[4], [1, 2, 3, 4]⟩ none none none (.seq [2, 3])) =
      some (2, 2, [3, 3], [3, 3]) ∧
    barTitles (plot_combined schemeStub schemeStub schemeStub clwStub
        ⟨[4], [1, 2, 3, 4]⟩ none none none (.seq [2, 3])) =
      [labelsFor 2, labelsFor 3] :=
  combined_driver_scalar_fallback_and_counts schemeStub schemeStub schemeStub
    clwStub ⟨[4], [1, 2, 3, 4]⟩ none none none ⟨[2, 2], [1, 2, 3, 4]⟩
    (linspace01 2) (linspace01 2) 5 rfl

/-- C8: the bar-comparison operation with level-set, density and label
sequences that are not all the same length fails with the length-mismatch
`ValueError`, whichever argument is the short one; the error return precedes
any figure or subplot creation. -/
theorem bar_stat_length_mismatch_error (clw : List ℚ → NdArray → List ℚ)
    (levels_lst : List (List ℚ)) (pdf_lst : List NdArray) (labels : List String)
    (h : ¬(levels_lst.length = pdf_lst.length ∧
           levels_lst.length = labels.length)) :
    plot_contour_levels_stat clw levels_lst pdf_lst labels =
      .error (.valueError "All arguments must be sequences of equal length.") := by
  unfold plot_contour_levels_stat
  rw [if_neg h]

/-- C8 witness: one level set, no densities, one label. -/
theorem bar_stat_length_mismatch_error_witness :
    plot_contour_levels_stat clwStub [[0]] [] ["old"] =
      .error (.valueError "All arguments must be sequences of equal length.") :=
  bar_stat_length_mismatch_error clwStub [[0]] [] ["old"] (by decide)

/-- C9 counterexample: the bar subplot titles the combined driver produces
for resolution 3 are `old (k=3)`, `vertical (k=3)` and `horizonal (k=3)` —
the third fixed display tag is spelled `horizonal` on line 225 of the
source, not `horizontal` as the claim states. -/
theorem combined_bar_titles_horizonal_counterexample :
    barTitles (plot_combined schemeStub schemeStub schemeStub clwStub
        ⟨[4], [1, 2, 3, 4]⟩ none none none (.scalar 3)) =
      [["old (k=3)", "vertical (k=3)", "horizonal (k=3)"]] ∧
    ("horizonal (k=3)" : String) ≠ "horizontal (k=3)" :=
  ⟨rfl, by decide⟩

/-- C9 (amended): for every resolution `k` processed by the combined driver,
the bar-comparison subplots are titled `"<scheme-name> (k=<k>)"` where the
three scheme names are, in order, the fixed display tags `old`, `vertical`
and `horizonal` (sic — the source misspells the third tag). -/
theorem combined_bar_titles_schemes (ev epl ehpl : NdArray → Nat → List ℚ)
    (clw : List ℚ → NdArray → List ℚ) (p0 : NdArray) (x0 y0 : Option (List ℚ))
    (idx : Option (List (List ℚ))) (p : NdArray) (x y : List ℚ) (kk : Nat)
    (ks : List Nat)
    (h : validate_infer_indexes p0 x0 y0 idx = .ok (p, x, y)) :
    barTitles (plot_combined ev epl ehpl clw p0 x0 y0 idx (.scalar kk)) =
      [["old (k=" ++ toString kk ++ ")", "vertical (k=" ++ toString kk ++ ")",
        "horizonal (k=" ++ toString kk ++ ")"]] ∧
    barTitles (plot_combined ev epl ehpl clw p0 x0 y0 idx (.seq ks)) =
      ks.map (fun ki => ["old (k=" ++ toString ki ++ ")",
        "vertical (k=" ++ toString ki ++ ")",
        "horizonal (k=" ++ toString ki ++ ")"]) := by
  have hsh := (validate_ok_shape p0 x0 y0 idx p x y h).1
  constructor
  · rw [plot_combined_ok ev epl ehpl clw p0 x0 y0 idx p x y _ h,
      plotCombinedCore_scalar_eq_seq,
      plotCombinedCore_seq ev epl ehpl clw p x y [kk] hsh]
    rfl
  · rw [plot_combined_ok ev epl ehpl clw p0 x0 y0 idx p x y _ h,
      plotCombinedCore_seq ev epl ehpl clw p x y ks hsh]
    simp only [barTitles]
    exact barTitles_seq ev epl ehpl clw p ks

/-- C9 witness: the amended titles at resolution 7 and at the sequence
`[2, 3]`, on the flat density `[1,2,3,4]` with spec-modelled externals. -/
theorem combined_bar_titles_schemes_witness :
    barTitles (plot_combined schemeStub schemeStub schemeStub clwStub
        ⟨[4], [1, 2, 3, 4]⟩ none none none (.scalar 7)) =
      [["old (k=" ++ toString 7 ++ ")", "vertical (k=" ++ toString 7 ++ ")",
        "horizonal (k=" ++ toString 7 ++ ")"]] ∧
    barTitles (plot_combined schemeStub schemeStub schemeStub clwStub
        ⟨[4], [1, 2, 3, 4]⟩ none none none (.seq [2, 3])) =
      [2, 3].map (fun ki => ["old (k=" ++ toString ki ++ ")",
        "vertical (k=" ++ toString ki ++ ")",
        "horizonal (k=" ++ toString ki ++ ")"]) :=
  combined_bar_titles_schemes schemeStub schemeStub schemeStub clwStub
    ⟨[4], [1, 2, 3, 4]⟩ none none none ⟨[2, 2], [1, 2, 3, 4]⟩
    (linspace01 2) (linspace01 2) 7 [2, 3] rfl

/-- C10: the bar-comparison operation called with one scheme (all three
sequences of length 1, satisfying the equal-length precondition) fails with
a `TypeError` instead of rendering a single bar subplot: with `ncols=1`,
`plt.subplots` returns a single Axes object, which does not support the
indexing `ax[i]` used in the loop. -/
theorem bar_stat_single_scheme_raises_typeError
    (clw : List ℚ → NdArray → List ℚ) (levels : List ℚ) (pdf : NdArray)
    (label : String) :
    plot_contour_levels_stat clw [levels] [pdf] [label] =
      .error (.typeError "AxesSubplot object is not subscriptable") := rfl
